import Mathlib

/-!
Verification of the Prometheus-Siren proxy ("Jirachi Shield").

The development shallowly embeds the two source files of the repository:

* `src/jirachi-proxy/src/main.rs` — the Axum HTTP proxy.  Its request
  handler `proxy_handler` is embedded as a pure function over the inbound
  request together with two environment oracles: the outcome of the
  escalation POST to the judgment service ("the General"), and the outcome
  of the forwarding call to the upstream service.  Network effects are
  the only impurity of the handler, so fixing their outcomes as inputs
  gives a faithful functional model of one handler invocation.
* `src/ebpf_shield/src/main.rs` — the XDP program `xdp_firewall` with its
  (unused) `BLOCKLIST` map.

`Response::builder()...unwrap()` chains in the Rust code panic when the
builder carries an error (invalid status code or invalid header); the
embedding models a builder chain as `buildResponse`, which returns `none`
exactly when the real builder would have errored, so "the `unwrap` never
panics" becomes "`buildResponse` returns `some`".
-/

namespace JirachiProxy

/-- `containsSub pat l` decides whether `pat` occurs as a contiguous
sublist of `l`. -/
def containsSub (pat : List Char) : List Char → Bool
  | [] => pat.isEmpty
  | c :: rest => pat.isPrefixOf (c :: rest) || containsSub pat rest

/-- Substring test, embedding Rust's `str::contains(&str)`. -/
def containsSubstr (haystack pat : String) : Bool :=
  containsSub pat.toList haystack.toList

/-- Embeds the `Command` struct of `main.rs`: the action string and the
(unused) optional redirect target. -/
structure Command where
  action : String
  redirect_target : Option String
  deriving Repr, DecidableEq

/-- Embeds the `ThreatJudgment` struct of `main.rs` (the parsed Verdict). -/
structure ThreatJudgment where
  artifact_type : String
  threat_level : String
  command : Command
  deriving Repr, DecidableEq

/-- Embeds `AppState`: the two configured URLs.  The shared HTTP client
carries no observable state in the model (its effects are the oracles). -/
structure AppState where
  brain_url : String
  upstream_url : String
  deriving Repr, DecidableEq

/-- An inbound HTTP request, as the handler observes it: method, path,
optional raw query string, and body bytes (each a `Nat` below 256). -/
structure Request where
  method : String
  path : String
  query : Option String
  body : List Nat
  deriving Repr, DecidableEq

/-- The request-target string `req.uri().to_string()` for an origin-form
request: the path, then `?` and the query when a query is present. -/
def uriString (req : Request) : String :=
  req.path ++ (match req.query with
    | none => ""
    | some q => "?" ++ q)

/-- Embeds the Sentinel line of `proxy_handler`:
`uri.contains("admin") || uri.contains("UNION") || uri.contains("%27") || uri.contains("siren_test")`. -/
def is_suspicious (uri : String) : Bool :=
  containsSubstr uri "admin" || containsSubstr uri "UNION" ||
    containsSubstr uri "%27" || containsSubstr uri "siren_test"

/-- A response body: either UTF-8 text (`Body::from(&str)`/`String`) or raw
bytes (`Body::from(bytes)`).  The embedding keeps the two apart so that
"raw body bytes unchanged" is a statement about the very bytes. -/
inductive RespBody where
  | text (s : String) : RespBody
  | bytes (b : List Nat) : RespBody
  deriving Repr, DecidableEq

/-- An HTTP response as built by the handler: status code, explicitly set
headers, body. -/
structure HttpResponse where
  status : Nat
  headers : List (String × String)
  body : RespBody
  deriving Repr, DecidableEq

/-- `http::StatusCode::from_u16` succeeds exactly on 100..=999. -/
def validStatusCode (n : Nat) : Bool :=
  decide (100 ≤ n) && decide (n < 1000)

/-- A header name accepted by the `http` crate's builder: nonempty, made of
token characters (the model admits alphanumerics and `-`). -/
def validHeaderName (s : String) : Bool :=
  !s.isEmpty && s.toList.all (fun c => c.isAlphanum || c = '-')

/-- A header value accepted by the `http` crate's builder: visible ASCII,
space or tab. -/
def validHeaderValue (s : String) : Bool :=
  s.toList.all (fun c => (32 ≤ c.toNat && c.toNat ≤ 126) || c = '\t')

/-- Embeds a `Response::builder().status(st).header(..)...body(..)` chain:
`some` response, or `none` exactly when the builder carries an error and
the trailing `unwrap()` would panic. -/
def buildResponse (status : Nat) (headers : List (String × String))
    (body : RespBody) : Option HttpResponse :=
  if validStatusCode status
      && headers.all (fun h => validHeaderName h.1 && validHeaderValue h.2) then
    some ⟨status, headers, body⟩
  else
    none

/-- The outcome of the escalation POST, as `proxy_handler` distinguishes it:
transport failure (`Err(e)` from `send()`), parse failure (`resp.json()`
not an `Ok`), or a parsed `ThreatJudgment`. -/
inductive EscalationResult where
  | transportError (msg : String) : EscalationResult
  | parseError : EscalationResult
  | verdict (judgment : ThreatJudgment) : EscalationResult
  deriving Repr, DecidableEq

/-- The outbound request the Forwarder issues: method, full URL, body. -/
structure OutboundRequest where
  method : String
  url : String
  body : Option (List Nat)
  deriving Repr, DecidableEq

/-- Embeds the `target_url` computation of `proxy_handler`:
`format!("{}{}{}", state.upstream_url, path, if query.is_empty() ...)`
with `query = req.uri().query().unwrap_or("")`. -/
def target_url (state : AppState) (req : Request) : String :=
  let path := req.path
  let query := req.query.getD ""
  state.upstream_url ++ path ++ (if query.isEmpty then "" else "?" ++ query)

/-- The upstream call issued by the Forwarder:
`state.http_client.get(&target_url).send()` — a GET with no body. -/
def forwardRequest (state : AppState) (req : Request) : OutboundRequest :=
  ⟨"GET", target_url state req, none⟩

/-- The outcome of the forwarding call: a response with its status
(`status().as_u16()`) and its body bytes (`none` when `bytes()` fails,
which the code replaces by the empty default), or a transport error. -/
inductive UpstreamResult where
  | ok (status : Nat) (body : Option (List Nat)) : UpstreamResult
  | err (msg : String) : UpstreamResult
  deriving Repr, DecidableEq

/-- `StatusCode::from_u16(n).unwrap_or(StatusCode::INTERNAL_SERVER_ERROR)`. -/
def from_u16_or_500 (n : Nat) : Nat :=
  if validStatusCode n then n else 500

/-- Embeds the forwarding section of `proxy_handler` (step 3): issue
`forwardRequest` to the upstream oracle `net`; on `Ok`, relay the mapped
status and the body bytes (empty on a failed body read); on `Err`, build a
502 with the error text. -/
def forward (state : AppState) (req : Request)
    (net : OutboundRequest → UpstreamResult) : Option HttpResponse :=
  match net (forwardRequest state req) with
  | UpstreamResult.ok status bodyBytes =>
      buildResponse (from_u16_or_500 status) [] (RespBody.bytes (bodyBytes.getD []))
  | UpstreamResult.err e =>
      buildResponse 502 [] (RespBody.text ("Upstream Error: " ++ e))

/-- What one invocation of `proxy_handler` yields in the model: the built
response (`none` would mean a panicking `unwrap`), and whether the
escalation POST was issued. -/
structure HandlerResult where
  response : Option HttpResponse
  escalated : Bool
  deriving Repr, DecidableEq

/-- Embeds `proxy_handler` of `main.rs`.  `escalation` fixes the outcome of
the escalation POST (consulted only on the suspicious path, where the code
issues it), `net` fixes the upstream call's outcome.  Control flow follows
the source: suspicious requests escalate; a parsed verdict with action
`"BLOCK"` returns the fixed 403, `"DECEIVE"` the 307 redirect to `/trap`;
every other case falls through to forwarding. -/
def proxy_handler (state : AppState) (req : Request)
    (escalation : EscalationResult)
    (net : OutboundRequest → UpstreamResult) : HandlerResult :=
  let uri := uriString req
  if is_suspicious uri then
    match escalation with
    | EscalationResult.verdict judgment =>
        if judgment.command.action == "BLOCK" then
          ⟨buildResponse 403 []
            (RespBody.text "Jirachi Shield: Request Blocked by Command."), true⟩
        else if judgment.command.action == "DECEIVE" then
          ⟨buildResponse 307 [("Location", "/trap")]
            (RespBody.text "Redirecting for debug..."), true⟩
        else
          ⟨forward state req net, true⟩
    | EscalationResult.transportError _ => ⟨forward state req net, true⟩
    | EscalationResult.parseError => ⟨forward state req net, true⟩
  else
    ⟨forward state req net, false⟩

/-- The fixed marker set of the Sentinel, as the spec's data-driven
formulation lists it. -/
def MARKERS : List String := ["admin", "UNION", "%27", "siren_test"]

/-- Modelled from the spec's words (refinement side of the Sentinel claim):
suspicious iff the concatenation of path and query — with no separator, as
the sentence literally reads — contains a marker. -/
def specConcatSuspicious (req : Request) : Bool :=
  MARKERS.any (fun m => containsSubstr (req.path ++ req.query.getD "") m)

end JirachiProxy

namespace EbpfShield

/-- `xdp_action::XDP_ABORTED`. -/
def XDP_ABORTED : Nat := 0

/-- `xdp_action::XDP_DROP`. -/
def XDP_DROP : Nat := 1

/-- `xdp_action::XDP_PASS`. -/
def XDP_PASS : Nat := 2

/-- The packet context handed to the XDP program; the baseline program
never inspects it, so its content is just the raw packet bytes. -/
structure XdpContext where
  packet : List Nat
  deriving Repr, DecidableEq

/-- Capacity of the `BLOCKLIST` map (`HashMap::with_max_entries(1024, 0)`). -/
def BLOCKLIST_MAX_ENTRIES : Nat := 1024

/-- The `BLOCKLIST` map's contents: source address (u32) to block count
(u32), as an association list. -/
def Blocklist : Type := List (Nat × Nat)

/-- Embeds `try_xdp_firewall`: the baseline body is `Ok(xdp_action::XDP_PASS)`
— the blocklist lookup is commented out in the source, so the map is
never consulted. -/
def try_xdp_firewall (blocklist : Blocklist) (ctx : XdpContext) :
    Except Unit Nat :=
  Except.ok XDP_PASS

/-- Embeds `xdp_firewall`: run `try_xdp_firewall`, turning an error into
`XDP_ABORTED`. -/
def xdp_firewall (blocklist : Blocklist) (ctx : XdpContext) : Nat :=
  match try_xdp_firewall blocklist ctx with
  | Except.ok ret => ret
  | Except.error _ => XDP_ABORTED

end EbpfShield

open JirachiProxy EbpfShield

/-- Helper: `from_u16_or_500` always lands in the valid status range. -/
theorem validStatusCode_from_u16 (n : Nat) :
    validStatusCode (from_u16_or_500 n) = true := by
  unfold from_u16_or_500
  by_cases h : validStatusCode n = true
  · simp [h]
  · simp [h]
    decide

/-- Helper: the Forwarder always produces a response — neither of its two
builder chains can carry an error. -/
theorem forward_isSome (state : AppState) (req : Request)
    (net : OutboundRequest → UpstreamResult) :
    (forward state req net).isSome = true := by
  unfold forward
  cases net (forwardRequest state req) with
  | ok status bodyBytes =>
      simp [buildResponse, validStatusCode_from_u16]
  | err e =>
      simp [buildResponse]
      decide

/-- C1: for a suspicious request, when the escalation POST fails at
transport level, or the transport succeeds but the body fails to parse as
a Verdict, the handler fails open: its response is exactly the Forwarder's
response for that same request (no error reaches the client). -/
theorem C1_escalation_failure_fails_open (state : AppState) (req : Request)
    (net : OutboundRequest → UpstreamResult) (msg : String)
    (hs : is_suspicious (uriString req) = true) :
    (proxy_handler state req (EscalationResult.transportError msg) net).response
        = forward state req net ∧
      (proxy_handler state req EscalationResult.parseError net).response
        = forward state req net := by
  constructor <;> simp [proxy_handler, hs]

theorem C1_escalation_failure_fails_open_witness :
    is_suspicious (uriString ⟨"GET", "/admin", none, []⟩) = true ∧
      ((proxy_handler ⟨"b", "u"⟩ ⟨"GET", "/admin", none, []⟩
            (EscalationResult.transportError "connection refused")
            (fun _ => UpstreamResult.ok 200 (some [79, 75]))).response
          = forward ⟨"b", "u"⟩ ⟨"GET", "/admin", none, []⟩
              (fun _ => UpstreamResult.ok 200 (some [79, 75])) ∧
        (proxy_handler ⟨"b", "u"⟩ ⟨"GET", "/admin", none, []⟩
            EscalationResult.parseError
            (fun _ => UpstreamResult.ok 200 (some [79, 75]))).response
          = forward ⟨"b", "u"⟩ ⟨"GET", "/admin", none, []⟩
              (fun _ => UpstreamResult.ok 200 (some [79, 75]))) :=
  ⟨by decide,
    C1_escalation_failure_fails_open ⟨"b", "u"⟩ ⟨"GET", "/admin", none, []⟩
      (fun _ => UpstreamResult.ok 200 (some [79, 75])) "connection refused"
      (by decide)⟩

/-- C2 counterexample: the claim reads the Sentinel predicate as acting on
the concatenation of path and query.  For path `/ad` with query `min` the
concatenation `/admin` contains the marker `admin`, yet the code tests the
request-target string `/ad?min`, which contains no marker, so the request
is not flagged and not escalated. -/
theorem C2_sentinel_concat_counterexample :
    specConcatSuspicious ⟨"GET", "/ad", some "min", []⟩ = true ∧
      is_suspicious (uriString ⟨"GET", "/ad", some "min", []⟩) = false ∧
      (proxy_handler ⟨"b", "u"⟩ ⟨"GET", "/ad", some "min", []⟩
          EscalationResult.parseError
          (fun _ => UpstreamResult.ok 200 (some []))).escalated = false := by
  refine ⟨by decide, by decide, ?_⟩
  simp [proxy_handler]
  decide

/-- C2 amended: the Sentinel flags a request suspicious iff its
request-target string — the path, followed by `?` and the query when a
query is present — contains one of the markers `admin`, `UNION`, `%27`,
`siren_test` (case-sensitive); a request whose target string contains none
of them is not flagged and is never escalated. -/
theorem C2_sentinel_markers_amended (state : AppState) (req : Request)
    (esc : EscalationResult) (net : OutboundRequest → UpstreamResult) :
    is_suspicious (uriString req)
        = MARKERS.any (fun m => containsSubstr (uriString req) m) ∧
      (MARKERS.any (fun m => containsSubstr (uriString req) m) = false →
        (proxy_handler state req esc net).escalated = false) := by
  have key : is_suspicious (uriString req)
      = MARKERS.any (fun m => containsSubstr (uriString req) m) := by
    simp [is_suspicious, MARKERS, Bool.or_assoc]
  refine ⟨key, fun h => ?_⟩
  have hs : is_suspicious (uriString req) = false := key.trans h
  simp [proxy_handler, hs]

theorem C2_sentinel_markers_amended_witness :
    MARKERS.any
        (fun m => containsSubstr (uriString ⟨"GET", "/products", some "id=1", []⟩) m)
        = false ∧
      (proxy_handler ⟨"b", "u"⟩ ⟨"GET", "/products", some "id=1", []⟩
          EscalationResult.parseError
          (fun _ => UpstreamResult.ok 200 (some []))).escalated = false :=
  ⟨by decide,
    (C2_sentinel_markers_amended ⟨"b", "u"⟩ ⟨"GET", "/products", some "id=1", []⟩
        EscalationResult.parseError (fun _ => UpstreamResult.ok 200 (some []))).2
      (by decide)⟩

/-- C3: for a suspicious request whose escalation parses into a Verdict
with `command.action = "BLOCK"`, the handler returns HTTP 403 with the
fixed plain-text body naming the blocking authority, whatever the
verdict's `threat_level` and `artifact_type`. -/
theorem C3_block_verdict_yields_403 (state : AppState) (req : Request)
    (judgment : ThreatJudgment) (net : OutboundRequest → UpstreamResult)
    (hs : is_suspicious (uriString req) = true)
    (ha : judgment.command.action = "BLOCK") :
    (proxy_handler state req (EscalationResult.verdict judgment) net).response
      = some ⟨403, [],
          RespBody.text "Jirachi Shield: Request Blocked by Command."⟩ := by
  simp [proxy_handler, hs, ha]
  decide

theorem C3_block_verdict_yields_403_witness :
    (is_suspicious (uriString ⟨"GET", "/admin/login", none, []⟩) = true ∧
        (Command.mk "BLOCK" none).action = "BLOCK") ∧
      (proxy_handler ⟨"b", "u"⟩ ⟨"GET", "/admin/login", none, []⟩
          (EscalationResult.verdict ⟨"http", "HIGH", ⟨"BLOCK", none⟩⟩)
          (fun _ => UpstreamResult.ok 200 (some []))).response
        = some ⟨403, [],
            RespBody.text "Jirachi Shield: Request Blocked by Command."⟩ :=
  ⟨⟨by decide, rfl⟩,
    C3_block_verdict_yields_403 ⟨"b", "u"⟩ ⟨"GET", "/admin/login", none, []⟩
      ⟨"http", "HIGH", ⟨"BLOCK", none⟩⟩ (fun _ => UpstreamResult.ok 200 (some []))
      (by decide) rfl⟩

/-- C4: for a suspicious request whose escalation parses into a Verdict
with `command.action = "DECEIVE"`, the handler returns HTTP 307 with a
`Location: /trap` header and the generic plain-text body, whatever the
other verdict fields (including `redirect_target`, which is never read). -/
theorem C4_deceive_verdict_redirects (state : AppState) (req : Request)
    (judgment : ThreatJudgment) (net : OutboundRequest → UpstreamResult)
    (hs : is_suspicious (uriString req) = true)
    (ha : judgment.command.action = "DECEIVE") :
    (proxy_handler state req (EscalationResult.verdict judgment) net).response
      = some ⟨307, [("Location", "/trap")],
          RespBody.text "Redirecting for debug..."⟩ := by
  simp [proxy_handler, hs, ha]
  decide

theorem C4_deceive_verdict_redirects_witness :
    (is_suspicious (uriString ⟨"GET", "/", some "q=%27", []⟩) = true ∧
        (Command.mk "DECEIVE" (some "http://honeypot")).action = "DECEIVE") ∧
      (proxy_handler ⟨"b", "u"⟩ ⟨"GET", "/", some "q=%27", []⟩
          (EscalationResult.verdict
            ⟨"sql", "LOW", ⟨"DECEIVE", some "http://honeypot"⟩⟩)
          (fun _ => UpstreamResult.ok 200 (some []))).response
        = some ⟨307, [("Location", "/trap")],
            RespBody.text "Redirecting for debug..."⟩ :=
  ⟨⟨by decide, rfl⟩,
    C4_deceive_verdict_redirects ⟨"b", "u"⟩ ⟨"GET", "/", some "q=%27", []⟩
      ⟨"sql", "LOW", ⟨"DECEIVE", some "http://honeypot"⟩⟩
      (fun _ => UpstreamResult.ok 200 (some [])) (by decide) rfl⟩

/-- C5: for a suspicious request whose Verdict has an action other than
`"BLOCK"` and `"DECEIVE"` — `"ALLOW"` or anything unrecognized — the
handler neither blocks nor redirects: it returns the Forwarder's response,
and that response always exists (no crash on unrecognized actions). -/
theorem C5_other_actions_forward (state : AppState) (req : Request)
    (judgment : ThreatJudgment) (net : OutboundRequest → UpstreamResult)
    (hs : is_suspicious (uriString req) = true)
    (hb : judgment.command.action ≠ "BLOCK")
    (hd : judgment.command.action ≠ "DECEIVE") :
    (proxy_handler state req (EscalationResult.verdict judgment) net).response
        = forward state req net ∧
      (forward state req net).isSome = true := by
  refine ⟨?_, forward_isSome state req net⟩
  simp [proxy_handler, hs, hb, hd]

theorem C5_other_actions_forward_witness :
    (is_suspicious (uriString ⟨"GET", "/siren_test", none, []⟩) = true ∧
        (Command.mk "GARBAGE_ACTION" none).action ≠ "BLOCK" ∧
        (Command.mk "GARBAGE_ACTION" none).action ≠ "DECEIVE") ∧
      ((proxy_handler ⟨"b", "u"⟩ ⟨"GET", "/siren_test", none, []⟩
            (EscalationResult.verdict ⟨"x", "y", ⟨"GARBAGE_ACTION", none⟩⟩)
            (fun _ => UpstreamResult.err "refused")).response
          = forward ⟨"b", "u"⟩ ⟨"GET", "/siren_test", none, []⟩
              (fun _ => UpstreamResult.err "refused") ∧
        (forward ⟨"b", "u"⟩ ⟨"GET", "/siren_test", none, []⟩
            (fun _ => UpstreamResult.err "refused")).isSome = true) :=
  ⟨⟨by decide, by decide, by decide⟩,
    C5_other_actions_forward ⟨"b", "u"⟩ ⟨"GET", "/siren_test", none, []⟩
      ⟨"x", "y", ⟨"GARBAGE_ACTION", none⟩⟩ (fun _ => UpstreamResult.err "refused")
      (by decide) (by decide) (by decide)⟩

/-- C6: the Forwarder's upstream target URL is exactly the configured
upstream base, the original path, and a `?`-prefixed original query only
when the query is non-empty; the call is a GET with no body, independent
of the inbound request's method and body. -/
theorem C6_forward_request_shape (state : AppState) (req : Request) :
    forwardRequest state req
        = ⟨"GET",
            state.upstream_url ++ req.path
              ++ (if (req.query.getD "").isEmpty then ""
                  else "?" ++ req.query.getD ""),
            none⟩ ∧
      (∀ m b, forwardRequest state ⟨m, req.path, req.query, b⟩
          = forwardRequest state req) :=
  ⟨rfl, fun _ _ => rfl⟩

/-- C7: on a successful upstream response whose body is read, the client
response carries the upstream status verbatim when it is a mappable status
code, 500 otherwise, and in both cases the upstream's raw body bytes
unchanged. -/
theorem C7_upstream_ok_relay (state : AppState) (req : Request)
    (net : OutboundRequest → UpstreamResult) (s : Nat) (b : List Nat)
    (h : net (forwardRequest state req) = UpstreamResult.ok s (some b)) :
    (validStatusCode s = true →
        forward state req net = some ⟨s, [], RespBody.bytes b⟩) ∧
      (validStatusCode s = false →
        forward state req net = some ⟨500, [], RespBody.bytes b⟩) := by
  have h500 : validStatusCode 500 = true := by decide
  constructor <;> intro hv
  · simp [forward, h, from_u16_or_500, hv, buildResponse]
  · simp [forward, h, from_u16_or_500, hv, buildResponse, h500]

theorem C7_upstream_ok_relay_witness :
    ((fun _ => UpstreamResult.ok 404 (some [1, 2]) :
          OutboundRequest → UpstreamResult)
        (forwardRequest ⟨"b", "u"⟩ ⟨"GET", "/products", some "id=1", []⟩)
          = UpstreamResult.ok 404 (some [1, 2]) ∧
      validStatusCode 404 = true) ∧
      forward ⟨"b", "u"⟩ ⟨"GET", "/products", some "id=1", []⟩
          (fun _ => UpstreamResult.ok 404 (some [1, 2]))
        = some ⟨404, [], RespBody.bytes [1, 2]⟩ :=
  ⟨⟨rfl, by decide⟩,
    (C7_upstream_ok_relay ⟨"b", "u"⟩ ⟨"GET", "/products", some "id=1", []⟩
        (fun _ => UpstreamResult.ok 404 (some [1, 2])) 404 [1, 2] rfl).1
      (by decide)⟩

/-- C8: when the forwarding transport fails, the client receives HTTP 502
with a plain-text body embedding the underlying failure description. -/
theorem C8_upstream_error_502 (state : AppState) (req : Request)
    (net : OutboundRequest → UpstreamResult) (e : String)
    (h : net (forwardRequest state req) = UpstreamResult.err e) :
    forward state req net
      = some ⟨502, [], RespBody.text ("Upstream Error: " ++ e)⟩ := by
  simp [forward, h, buildResponse, validStatusCode]

theorem C8_upstream_error_502_witness :
    ((fun _ => UpstreamResult.err "connect timeout" :
          OutboundRequest → UpstreamResult)
        (forwardRequest ⟨"b", "u"⟩ ⟨"GET", "/p", none, []⟩)
          = UpstreamResult.err "connect timeout") ∧
      forward ⟨"b", "u"⟩ ⟨"GET", "/p", none, []⟩
          (fun _ => UpstreamResult.err "connect timeout")
        = some ⟨502, [],
            RespBody.text ("Upstream Error: " ++ "connect timeout")⟩ :=
  ⟨rfl,
    C8_upstream_error_502 ⟨"b", "u"⟩ ⟨"GET", "/p", none, []⟩
      (fun _ => UpstreamResult.err "connect timeout") "connect timeout" rfl⟩

/-- C9: every handler invocation resolves to a concrete HTTP response —
each builder chain (every `unwrap()` in the handler) succeeds, so no
structured error or panic ever reaches the caller. -/
theorem C9_handler_always_responds (state : AppState) (req : Request)
    (esc : EscalationResult) (net : OutboundRequest → UpstreamResult) :
    ((proxy_handler state req esc net).response).isSome = true := by
  have hf := forward_isSome state req net
  have h403 : (buildResponse 403 []
      (RespBody.text "Jirachi Shield: Request Blocked by Command.")).isSome
        = true := by decide
  have h307 : (buildResponse 307 [("Location", "/trap")]
      (RespBody.text "Redirecting for debug...")).isSome = true := by decide
  by_cases hs : is_suspicious (uriString req) = true
  · cases esc with
    | transportError msg => simpa [proxy_handler, hs] using hf
    | parseError => simpa [proxy_handler, hs] using hf
    | verdict judgment =>
        by_cases hb : (judgment.command.action == "BLOCK") = true
        · simpa [proxy_handler, hs, hb] using h403
        · by_cases hd : (judgment.command.action == "DECEIVE") = true
          · simpa [proxy_handler, hs, hb, hd] using h307
          · simpa [proxy_handler, hs, hb, hd] using hf
  · simp only [Bool.not_eq_true] at hs
    simpa [proxy_handler, hs] using hf

/-- C10: the baseline XDP program passes every packet: `try_xdp_firewall`
never errors, `xdp_firewall` returns `XDP_PASS` (never `XDP_ABORTED` or
`XDP_DROP`) and its result is independent of the 1024-entry `BLOCKLIST`
map, which is declared but never consulted. -/
theorem C10_xdp_always_pass (bl bl' : Blocklist) (ctx ctx' : XdpContext) :
    xdp_firewall bl ctx = XDP_PASS ∧
      try_xdp_firewall bl ctx = Except.ok XDP_PASS ∧
      xdp_firewall bl ctx = xdp_firewall bl' ctx' ∧
      xdp_firewall bl ctx ≠ XDP_ABORTED ∧
      xdp_firewall bl ctx ≠ XDP_DROP ∧
      BLOCKLIST_MAX_ENTRIES = 1024 := by
  refine ⟨rfl, rfl, rfl, ?_, ?_, rfl⟩ <;>
    simp [xdp_firewall, try_xdp_firewall, XDP_PASS, XDP_ABORTED, XDP_DROP]
